import Mathlib

/-!
Verification of the DefectDojo bootstrap orchestration module
(`plugins/modules/monitoring/defectdojo.py`).

The Python module is shallowly embedded: Python values are modelled by the
inductive type `Val`, exceptions by `PyErr`, and every observable side effect
(HTTP calls through the DefectDojo client, log lines, stdout writes) by an
`Event` trace.  Effectful Python functions become Lean functions into the
`Eff` monad, which pairs an accumulated event trace with an
exception-or-value result.  External collaborators (the `requests` library,
the DefectDojo client library, the filesystem and the process environment)
are oracles supplied through the `Env` and `Client` structures.
-/

namespace DefectDojo

/-- Model of the Python values that flow through the module: `None`,
booleans, integers, strings, lists and string-keyed dicts (every dict in
the module has string keys).  Dicts are modelled as association lists in
insertion order. -/
inductive Val where
  | none : Val
  | bool : Bool → Val
  | int : Int → Val
  | str : String → Val
  | list : List Val → Val
  | dict : List (String × Val) → Val

/-- Model of the Python exceptions that the module can raise or catch. -/
inductive PyErr where
  | keyError (msg : String)
  | attributeError (msg : String)
  | typeError (msg : String)
  | valueError (msg : String)
  | runtimeError (msg : String)
  | connectionError (msg : String)
  | timeoutError (msg : String)
  | notImplementedError
deriving DecidableEq, Repr

/-- Observable side effects of the module: outbound network calls made via
`requests` or the DefectDojo client, log lines (by level), and writes to
standard output.  `addProductMetadata` records the product id and the
metadata value; the metadata field name is the constant `'account'` in the
source. -/
inductive Event where
  | httpPost (url : String) (payload : Val)
  | getUser (uid : Int)
  | listProducts
  | createProduct (name description prod_type : Val)
  | addProductMetadata (productId value : Val)
  | logInfo (msg : String)
  | logError (msg : String)
  | logDebug (msg : String)
  | stdout (line : String)

mutual

/-- Python `==` on modelled values.  Python's `bool` is a subtype of `int`,
so `1 == True` and `0 == False`; lists compare elementwise with `==`.
(Python's order-insensitive dict `==` is modelled order-sensitively; no dict
ever reaches a `==` in the module.) -/
def pyEq : Val → Val → Bool
  | Val.none, Val.none => true
  | Val.bool x, Val.bool y => x == y
  | Val.bool x, Val.int n => (if x then (1 : Int) else 0) == n
  | Val.int n, Val.bool x => n == (if x then (1 : Int) else 0)
  | Val.int n, Val.int m => n == m
  | Val.str s, Val.str t => s == t
  | Val.list xs, Val.list ys => pyEqList xs ys
  | Val.dict kvs, Val.dict lvs => pyEqDict kvs lvs
  | _, _ => false

/-- Elementwise Python `==` on lists. -/
def pyEqList : List Val → List Val → Bool
  | [], [] => true
  | x :: xs, y :: ys => pyEq x y && pyEqList xs ys
  | _, _ => false

/-- Entrywise Python `==` on dict entries. -/
def pyEqDict : List (String × Val) → List (String × Val) → Bool
  | [], [] => true
  | (k, v) :: kvs, (l, w) :: lvs => k == l && pyEq v w && pyEqDict kvs lvs
  | _, _ => false

end

/-- Python truthiness of a modelled value (used by `if allow_existing:`). -/
def Val.truthy : Val → Bool
  | Val.none => false
  | Val.bool b => b
  | Val.int n => n != 0
  | Val.str s => s != ""
  | Val.list xs => !xs.isEmpty
  | Val.dict kvs => !kvs.isEmpty

mutual

/-- Python `repr` of a modelled value (the form `'{}'.format` uses for
containers, and `str` for everything except strings). -/
def Val.reprStr : Val → String
  | Val.none => "None"
  | Val.bool true => "True"
  | Val.bool false => "False"
  | Val.int n => toString n
  | Val.str s => "'" ++ s ++ "'"
  | Val.list xs => "[" ++ Val.reprList xs ++ "]"
  | Val.dict kvs => "\x7b" ++ Val.reprDict kvs ++ "\x7d"

/-- `repr` of the elements of a Python list, comma separated. -/
def Val.reprList : List Val → String
  | [] => ""
  | [x] => Val.reprStr x
  | x :: xs => Val.reprStr x ++ ", " ++ Val.reprList xs

/-- `repr` of the entries of a Python dict, comma separated. -/
def Val.reprDict : List (String × Val) → String
  | [] => ""
  | [(k, v)] => "'" ++ k ++ "': " ++ Val.reprStr v
  | (k, v) :: kvs => "'" ++ k ++ "': " ++ Val.reprStr v ++ ", " ++ Val.reprDict kvs

end

/-- Python `str` of a modelled value, as used by `'{}'.format(x)` and
f-strings: a string formats as itself, everything else as its `repr`. -/
def Val.pyStr : Val → String
  | Val.str s => s
  | v => Val.reprStr v

/-- Pure lookup in a modelled dict with a default (`dict.get(k, d)` once the
receiver is known to be a dict). -/
def dictGetD (kvs : List (String × Val)) (k : String) (d : Val) : Val :=
  ((kvs.find? (fun kv => kv.1 == k)).map Prod.snd).getD d

/-- `v.keys()`: the key list of a dict; `AttributeError` on any other
value (in particular on `None`). -/
def Val.keys : Val → Except PyErr (List String)
  | Val.dict kvs => Except.ok (kvs.map Prod.fst)
  | _ => Except.error (PyErr.attributeError "object has no attribute keys")

/-- `v.get(k, d)` with a string key: dict lookup with default;
`AttributeError` when the receiver is not a dict. -/
def Val.pyGet (v : Val) (k : String) (d : Val) : Except PyErr Val :=
  match v with
  | Val.dict kvs => Except.ok (dictGetD kvs k d)
  | _ => Except.error (PyErr.attributeError "object has no attribute get")

/-- `v.get(k)` where the key is itself a modelled value (used for
`context.get(with_items)`); default `None`, comparison by Python `==`. -/
def Val.pyGetV (v : Val) (k : Val) : Except PyErr Val :=
  match v with
  | Val.dict kvs =>
      Except.ok ((((kvs.find? (fun kv => pyEq (Val.str kv.1) k))).map Prod.snd).getD Val.none)
  | _ => Except.error (PyErr.attributeError "object has no attribute get")

/-- `v[k]` with a string key: `KeyError` when absent, `TypeError` when the
receiver is not a dict (the module only subscripts dicts). -/
def Val.getItem (v : Val) (k : String) : Except PyErr Val :=
  match v with
  | Val.dict kvs =>
      match kvs.find? (fun kv => kv.1 == k) with
      | some kv => Except.ok kv.2
      | Option.none => Except.error (PyErr.keyError k)
  | _ => Except.error (PyErr.typeError "object is not subscriptable")

/-- Python iteration over a modelled value: lists yield their elements,
dicts their keys, strings their characters; everything else raises
`TypeError` (in particular `None`, the implicit return of a failed
`get_products`). -/
def Val.iter : Val → Except PyErr (List Val)
  | Val.list xs => Except.ok xs
  | Val.dict kvs => Except.ok (kvs.map (fun kv => Val.str kv.1))
  | Val.str s => Except.ok (s.toList.map (fun c => Val.str (String.singleton c)))
  | _ => Except.error (PyErr.typeError "object is not iterable")

/-- `context.copy()`: copies a dict; `AttributeError` otherwise. -/
def Val.copyDict : Val → Except PyErr (List (String × Val))
  | Val.dict kvs => Except.ok kvs
  | _ => Except.error (PyErr.attributeError "object has no attribute copy")

/-- `params.pop(k)` on a dict: the popped value and the remaining entries;
`KeyError` when the key is absent. -/
def dictPop (kvs : List (String × Val)) (k : String) :
    Except PyErr (Val × List (String × Val)) :=
  match kvs.find? (fun kv => kv.1 == k) with
  | some kv => Except.ok (kv.2, kvs.filter (fun kv2 => kv2.1 != k))
  | Option.none => Except.error (PyErr.keyError k)

/-- The result of `os.getenv(name)`: the string value or `None`. -/
def os_getenv (o : Option String) : Val :=
  match o with
  | some s => Val.str s
  | Option.none => Val.none

/-- An effectful computation of the module: the event trace it emits
together with its exception-or-value result.  Events emitted before an
exception is raised stay in the trace, as the corresponding Python side
effects have already happened. -/
structure Eff (α : Type) where
  trace : List Event
  result : Except PyErr α

/-- Sequencing of effectful computations: traces concatenate, and an
exception short-circuits the continuation. -/
def Eff.bind {α β : Type} (x : Eff α) (f : α → Eff β) : Eff β :=
  match x.result with
  | Except.error e => ⟨x.trace, Except.error e⟩
  | Except.ok a => ⟨x.trace ++ (f a).trace, (f a).result⟩

instance : Monad Eff where
  pure a := ⟨[], Except.ok a⟩
  bind := Eff.bind

/-- Raise a Python exception. -/
def Eff.raise {α : Type} (e : PyErr) : Eff α := ⟨[], Except.error e⟩

/-- Emit one observable event. -/
def Eff.emit (ev : Event) : Eff Unit := ⟨[ev], Except.ok ()⟩

/-- Emit a list of observable events. -/
def Eff.tell (tr : List Event) : Eff Unit := ⟨tr, Except.ok ()⟩

/-- Lift a pure fallible computation (one with no side effects). -/
def Eff.liftE {α : Type} (r : Except PyErr α) : Eff α := ⟨[], r⟩

/-- Python `try: body except: handler` with a bare `except`: every
exception is caught; the body's events stay in the trace. -/
def Eff.tryCatchAll {α : Type} (body handler : Eff α) : Eff α :=
  match body.result with
  | Except.ok a => ⟨body.trace, Except.ok a⟩
  | Except.error _ => ⟨body.trace ++ handler.trace, handler.result⟩

/-- Python `try: body except E as ex: handler(ex)` with a selective
exception clause: exceptions not matched by `p` propagate. -/
def Eff.tryCatchOnly {α : Type} (p : PyErr → Bool) (body : Eff α)
    (handler : PyErr → Eff α) : Eff α :=
  match body.result with
  | Except.ok a => ⟨body.trace, Except.ok a⟩
  | Except.error e =>
      if p e then ⟨body.trace ++ (handler e).trace, (handler e).result⟩
      else ⟨body.trace, Except.error e⟩

theorem Eff.trace_bind_ok {α β : Type} {x : Eff α} {a : α} (f : α → Eff β)
    (h : x.result = Except.ok a) :
    (x >>= f).trace = x.trace ++ (f a).trace := by
  show (Eff.bind x f).trace = _
  unfold Eff.bind
  rw [h]

theorem Eff.trace_bind_error {α β : Type} {x : Eff α} {e : PyErr} (f : α → Eff β)
    (h : x.result = Except.error e) :
    (x >>= f).trace = x.trace := by
  show (Eff.bind x f).trace = _
  unfold Eff.bind
  rw [h]

theorem Eff.result_bind_ok {α β : Type} {x : Eff α} {a : α} (f : α → Eff β)
    (h : x.result = Except.ok a) :
    (x >>= f).result = (f a).result := by
  show (Eff.bind x f).result = _
  unfold Eff.bind
  rw [h]

theorem Eff.result_bind_error {α β : Type} {x : Eff α} {e : PyErr} (f : α → Eff β)
    (h : x.result = Except.error e) :
    (x >>= f).result = Except.error e := by
  show (Eff.bind x f).result = _
  unfold Eff.bind
  rw [h]

theorem Eff.result_bind_ok_iff {α β : Type} {x : Eff α} (f : α → Eff β) {b : β} :
    (x >>= f).result = Except.ok b ↔
      ∃ a, x.result = Except.ok a ∧ (f a).result = Except.ok b := by
  show (Eff.bind x f).result = _ ↔ _
  unfold Eff.bind
  cases h : x.result with
  | error e => simp
  | ok a => simp

theorem Eff.liftE_ok_bind {α β : Type} (a : α) (f : α → Eff β) :
    (Eff.liftE (Except.ok a) >>= f) = f a := by
  show Eff.bind _ _ = _
  unfold Eff.bind Eff.liftE
  simp

theorem Eff.liftE_error_bind {α β : Type} (e : PyErr) (f : α → Eff β) :
    (Eff.liftE (Except.error e) >>= f) = ⟨[], Except.error e⟩ := rfl

theorem Eff.emit_bind {β : Type} (ev : Event) (f : Unit → Eff β) :
    (Eff.emit ev >>= f) = ⟨ev :: (f ()).trace, (f ()).result⟩ := by
  show Eff.bind _ _ = _
  unfold Eff.bind Eff.emit
  simp

/-! ## External collaborators

The DefectDojo client library and the process/HTTP/filesystem world are
external; their behaviour is supplied by oracle structures.  An API call's
behaviour is an `Except`: `ok` is a returned response object, `error` is an
exception raised by the call (network failure, library error, ...). -/

/-- The response object of `client.list_products()`: its `success` flag and
the value `json.loads(result.data_json())` parses to (JSON decoding itself
is external and is modelled as already performed). -/
structure ListResult where
  success : Bool
  data : Val

/-- The response object of `client.create_product(...)`: its
`response_code` and its `data` payload (subscripted with `['id']`). -/
structure CreateResult where
  response_code : Int
  data : Val

/-- The response object of `client.get_user(id)`: its `success` flag. -/
structure UserResult where
  success : Bool

/-- Oracle for a constructed `defectdojo.DefectDojoAPIv2` client: the
behaviour of each remote API method the module calls. -/
structure Client where
  get_user : Int → Except PyErr UserResult
  list_products : Except PyErr ListResult
  create_product : Val → Val → Val → Except PyErr CreateResult
  add_product_metadata : Val → Val → Except PyErr Unit

/-- Oracle for the process environment and the remaining external world:
`os.getenv`, `dotenv.load_dotenv` on the module's `.env` path, the parsed
YAML document of the module's `bootstrap.yml` path, the login POST
performed by `requests` (returning `json.loads(response.content)`), and the
`DefectDojoAPIv2` constructor (host, api_key, user, remaining context
options). -/
structure Env where
  getenv : String → Option String
  dotenv_load : Except PyErr Unit
  yaml : Except PyErr Val
  http_post : String → Val → Except PyErr Val
  mk_client : Val → Val → Val → Val → Except PyErr Client

/-- `client.get_user(uid)` where `client` may be Python `None` (a failed
`create_client`): attribute access on `None` raises before any call is
issued; otherwise the call is issued (recorded in the trace) and behaves as
the oracle says. -/
def callGetUser (client : Option Client) (uid : Int) : Eff UserResult :=
  match client with
  | Option.none => Eff.raise (PyErr.attributeError "NoneType object has no attribute get_user")
  | Option.some c => do
      Eff.emit (Event.getUser uid)
      Eff.liftE (c.get_user uid)

/-- `client.list_products()`, `None`-aware as above. -/
def callListProducts (client : Option Client) : Eff ListResult :=
  match client with
  | Option.none => Eff.raise (PyErr.attributeError "NoneType object has no attribute list_products")
  | Option.some c => do
      Eff.emit Event.listProducts
      Eff.liftE c.list_products

/-- `client.create_product(name, description, prod_type)`, `None`-aware. -/
def callCreateProduct (client : Option Client) (name description prod_type : Val) :
    Eff CreateResult :=
  match client with
  | Option.none => Eff.raise (PyErr.attributeError "NoneType object has no attribute create_product")
  | Option.some c => do
      Eff.emit (Event.createProduct name description prod_type)
      Eff.liftE (c.create_product name description prod_type)

/-- `client.add_product_metadata(pid, name='account', value=account)`,
`None`-aware; the metadata field name is the constant `'account'`. -/
def callAddProductMetadata (client : Option Client) (pid account : Val) : Eff Unit :=
  match client with
  | Option.none => Eff.raise (PyErr.attributeError "NoneType object has no attribute add_product_metadata")
  | Option.some c => do
      Eff.emit (Event.addProductMetadata pid account)
      Eff.liftE (c.add_product_metadata pid account)

/-! ## The module's own functions -/

/-- Module constant `DD_ADMIN_USER_ID = 1`. -/
def DD_ADMIN_USER_ID : Int := 1

/-- Module constant `DD_ADMIN_PASSWORD = os.getenv("DD_ADMIN_PASSWORD", "admin")`:
the admin password with its `"admin"` default.  (Note: `get_api_key` below
re-reads the environment without the default instead of using this
constant.) -/
def DD_ADMIN_PASSWORD (env : Env) : String :=
  (env.getenv "DD_ADMIN_PASSWORD").getD "admin"

/-- `parse_bool(value=None)`: cast common truthy and falsey values into
booleans via Python `==`, passing every other value through unchanged. -/
def parse_bool (value : Val) : Val :=
  if (pyEq value (Val.bool true)) || (pyEq value (Val.str "1")) ||
      (pyEq value (Val.str "True")) || (pyEq value (Val.str "true")) then
    Val.bool true
  else if (pyEq value (Val.bool false)) || (pyEq value (Val.str "0")) ||
      (pyEq value (Val.str "False")) || (pyEq value (Val.str "false")) then
    Val.bool false
  else
    value

/-- The live `ContextFrom` enum member `FROM_DOTENV`: the enum's entire
body — the three builder functions and the member assignments
`FROM_NONE`/`FROM_DOTENV`/`FROM_YAML` — is commented out in the source, so
the enum has no members and the attribute access `ContextFrom.FROM_DOTENV`
in `run` raises `AttributeError`.  The member is modelled as the failing
lookup of the builder function it would name (a builder from the dotenv
load outcome, the process environment and a name map to a context). -/
def ContextFrom.FROM_DOTENV :
    Except PyErr (Except PyErr Unit → (String → Option String) →
      List (String × String) → Eff Val) :=
  Except.error (PyErr.attributeError "FROM_DOTENV")

/-- The live `ContextFrom` enum member `FROM_YAML`: commented out like the
rest of the enum body, so the attribute access raises `AttributeError`;
modelled as the failing lookup of the builder it would name (a builder from
a path and the parsed YAML outcome to a context). -/
def ContextFrom.FROM_YAML :
    Except PyErr (String → Except PyErr Val → Eff Val) :=
  Except.error (PyErr.attributeError "FROM_YAML")

/-- `create_context(context_from, *args, **kwargs)`: logs the chosen
builder's name at DEBUG and invokes it (the builder with its arguments is
passed as the already-applied computation `builder`). -/
def create_context (builder_name : String) (builder : Eff Val) : Eff Val := do
  Eff.emit (Event.logDebug ("Returning '" ++ builder_name ++ "' from context builder"))
  builder

/-- `get_api_key(context)`: POST a password login to
`{host}/api/{api_version}/api-token-auth/` with the context's user and the
password read directly from the process environment (without the module
constant's `"admin"` default), returning the response's `token`.  Only
`ConnectionError` and `TimeoutError` are caught (logged, implicit `None`
return); any other exception propagates. -/
def get_api_key (env : Env) (context : Val) : Eff Val :=
  -- `password = os.getenv('DD_ADMIN_PASSWORD')` binds an unused local.
  Eff.tryCatchOnly
    (fun e => match e with
      | PyErr.connectionError _ => true
      | PyErr.timeoutError _ => true
      | _ => false)
    (do
      let host ← Eff.liftE (context.pyGet "host" Val.none)
      let ver ← Eff.liftE (context.pyGet "api_version" Val.none)
      let url := host.pyStr ++ "/api/" ++ ver.pyStr ++ "/api-token-auth/?content-type=application/json"
      let user ← Eff.liftE (context.pyGet "user" Val.none)
      let payload := Val.dict [("username", user), ("password", os_getenv (env.getenv "DD_ADMIN_PASSWORD"))]
      Eff.emit (Event.httpPost url payload)
      let body ← Eff.liftE (env.http_post url payload)
      let api_key ← Eff.liftE (body.pyGet "token" Val.none)
      pure api_key)
    (fun ex => do
      Eff.emit (Event.logError (match ex with
        | PyErr.connectionError m => m
        | PyErr.timeoutError m => m
        | _ => ""))
      pure Val.none)

/-- `create_client(context, api_key)`: copy the context, pop `host` and
`user`, construct a `DefectDojoAPIv2` with the remaining entries as
options.  Any failure (missing key, constructor error) is caught and
logged, returning `None`. -/
def create_client (env : Env) (context : Val) (api_key : Val) : Eff (Option Client) :=
  Eff.tryCatchAll
    (do
      let params0 ← Eff.liftE context.copyDict
      let hp ← Eff.liftE (dictPop params0 "host")
      let up ← Eff.liftE (dictPop hp.2 "user")
      Eff.emit (Event.logDebug ("DefectDojo client host: '" ++ hp.1.pyStr ++
        "' user: '" ++ up.1.pyStr ++ "' with opts: '" ++ (Val.dict up.2).pyStr ++ "'"))
      let c ← Eff.liftE (env.mk_client hp.1 api_key up.1 (Val.dict up.2))
      pure (Option.some c))
    (do
      Eff.emit (Event.logError "Failed to create DD client, set logging.DEBUG for stack trace")
      Eff.emit (Event.logDebug "traceback")
      pure Option.none)

/-- `test_client(client)`: log, fetch the well-known administrative user
(`DD_ADMIN_USER_ID = 1`) and return the call's `success` flag; on any
exception, log and re-raise as `RuntimeError`. -/
def test_client (client : Option Client) : Eff Bool :=
  Eff.tryCatchAll
    (do
      Eff.emit (Event.logInfo "Testing client configuration is valid")
      let result ← callGetUser client DD_ADMIN_USER_ID
      pure result.success)
    (do
      Eff.emit (Event.logError "Client failed with exception, use DEBUG for details")
      Eff.emit (Event.logDebug "traceback")
      Eff.raise (PyErr.runtimeError "Client test failed, exiting"))

/-- `get_products(client)`: list the existing products; on success return
the parsed body's `objects` (default `{}`), on an unsuccessful response log
and return `{}`, and on any exception log and fall through to the implicit
`None` return. -/
def get_products (client : Option Client) : Eff Val :=
  Eff.tryCatchAll
    (do
      let result ← callListProducts client
      if result.success then
        Eff.liftE (result.data.pyGet "objects" (Val.dict []))
      else do
        Eff.emit (Event.logError "Error occurred in API call, returning empty response")
        pure (Val.dict []))
    (do
      Eff.emit (Event.logError "Error retrieving existing products, set DEBUG for details")
      Eff.emit (Event.logDebug "traceback")
      pure Val.none)

/-- The body of one iteration of `create_product`'s item loop, before its
`except` clause: derive the item's fields with their sentinel defaults,
skip or raise when the name already exists (per `allow_existing`),
otherwise create the product, attach the `account` metadata on a 201
response, and log the addition. -/
def product_item_body (client : Option Client) (current : List Val)
    (allow_existing : Val) (i : Val) : Eff Unit := do
  let name ← Eff.liftE (i.pyGet "name" (Val.str "ENOPRODNAME"))
  let description ← Eff.liftE (i.pyGet "description" (Val.str "ENOPRODDESCR"))
  let prod_type ← Eff.liftE (i.pyGet "prod_type" (Val.int 1))
  let account ← Eff.liftE (i.pyGet "account" (Val.str "none"))
  if current.any (fun c => pyEq c name) then
    if allow_existing.truthy then
      Eff.emit (Event.logInfo ("Product '" ++ name.pyStr ++ "' alread exists, skipping"))
    else
      Eff.raise (PyErr.keyError "Attempting to add existing item and 'allow_existing' set to False")
  else do
    let product ← callCreateProduct client name description prod_type
    if product.response_code == 201 then do
      let pid ← Eff.liftE (product.data.getItem "id")
      callAddProductMetadata client pid account
    else
      pure ()
    Eff.emit (Event.logInfo ("Added '" ++ i.pyStr ++ "'"))

/-- One iteration of `create_product`'s item loop: the body wrapped in the
bare `except` that logs any failure, so an iteration never raises. -/
def product_item_step (client : Option Client) (current : List Val)
    (allow_existing : Val) (i : Val) : List Event :=
  match product_item_body client current allow_existing i with
  | ⟨tr, Except.ok _⟩ => tr
  | ⟨tr, Except.error _⟩ =>
      tr ++ [Event.logError "Error in creating new product, set DEBUG for details",
             Event.logDebug "traceback"]

/-- `create_product`'s item loop: the iterations run in order and each is
isolated by its own `except`, so the loop's events are the concatenation of
the per-item events. -/
def product_loop (client : Option Client) (current : List Val)
    (allow_existing : Val) (items : List Val) : List Event :=
  (items.map (product_item_step client current allow_existing)).flatten

/-- `create_product(client, context)`: raise `KeyError` when the context
lacks a `products` key; resolve the step options and the item collection;
fetch the existing products once and extract their names; then run the item
loop. -/
def create_product (client : Option Client) (context : Val) : Eff Unit := do
  let ks ← Eff.liftE context.keys
  if !(ks.contains "products") then
    Eff.raise (PyErr.keyError ("Not provided proper products key in context '" ++ context.pyStr ++ "'"))
  else do
    let steps1 ← Eff.liftE (context.pyGet "steps" Val.none)
    let cp1 ← Eff.liftE (steps1.pyGet "create_product" Val.none)
    let allow_existing ← Eff.liftE (cp1.pyGet "allow_existing" (Val.bool false))
    let steps2 ← Eff.liftE (context.pyGet "steps" Val.none)
    let cp2 ← Eff.liftE (steps2.pyGet "create_product" Val.none)
    let with_items ← Eff.liftE (cp2.pyGet "with_items" (Val.str "ENOITEMS"))
    let items ← Eff.liftE (context.pyGetV with_items)
    let prods ← get_products client
    let plist ← Eff.liftE prods.iter
    let current ← Eff.liftE (plist.mapM (fun p => p.pyGet "name" Val.none))
    let itemsL ← Eff.liftE items.iter
    Eff.tell (product_loop client current allow_existing itemsL)

/-- The `vars_map` hard-coded in `run` for the auth context. -/
def run_vars_map : List (String × String) :=
  [("DD_HOST", "host"), ("DD_DEBUG", "debug"), ("DD_VERIFY_SSL", "verify_ssl"),
   ("DD_API_VERSION", "api_version"), ("DD_USER", "user")]

/-- The auth-context stage of `run`:
`create_context(ContextFrom.FROM_DOTENV, path=.../.env, vars_map=...)`.
Python evaluates the argument `ContextFrom.FROM_DOTENV` before the call,
and that attribute access raises `AttributeError` (the enum is empty), so
`create_context` is never entered; the `try: ... except: raise` around the
stage re-raises the error unchanged. -/
def run_auth_context (env : Env) : Eff Val := do
  let fdot ← Eff.liftE ContextFrom.FROM_DOTENV
  create_context "FROM_DOTENV" (fdot env.dotenv_load env.getenv run_vars_map)

/-- The step-dispatch block of `run`: read `steps` from the bootstrap
context, run `create_product` when declared, and swallow (log) any
exception raised inside the block. -/
def run_dispatch (client : Option Client) (context : Val) : Eff Unit :=
  Eff.tryCatchAll
    (do
      let steps ← Eff.liftE (context.pyGet "steps" Val.none)
      let ks ← Eff.liftE steps.keys
      if ks.contains "create_product" then do
        Eff.emit (Event.logInfo "Running step 'create_product'")
        create_product client context
      else
        pure ())
    (do
      Eff.emit (Event.logError "Exception raised in bootstrapping steps, set DEBUG for details")
      Eff.emit (Event.logDebug "traceback"))

/-- `run()`: the orchestration pipeline as written — build the auth
context, obtain the API key, build and test the client, build the
bootstrap context, dispatch the declared steps, log completion and print
the API key to standard output.  Because the `ContextFrom` enum is empty,
the very first stage raises `AttributeError` resolving
`ContextFrom.FROM_DOTENV` and everything after the start log is
unreachable.  (The `__file__`-relative directory prefix of the two config
paths is not modelled; the builders would receive the file contents
through `env`.) -/
def run (env : Env) : Eff Unit := do
  Eff.emit (Event.logInfo "Bootsrapping STARTS")
  let context ← run_auth_context env
  let api_key ← get_api_key env context
  let client ← create_client env context api_key
  let _ ← test_client client
  Eff.emit (Event.logInfo "Client tested successfully")
  Eff.emit (Event.logInfo "Generating bootstrap config")
  let fyaml ← Eff.liftE ContextFrom.FROM_YAML
  let context2 ← create_context "FROM_YAML" (fyaml "bootstrap.yml" env.yaml)
  run_dispatch client context2
  Eff.emit (Event.logInfo "Bootstrapping ENDED")
  Eff.emit (Event.stdout ("api_key: " ++ api_key.pyStr))

/-! ## Event matchers -/

/-- Whether an event is a create-product API call. -/
def Event.isCreateCall : Event → Bool
  | Event.createProduct _ _ _ => true
  | _ => false

/-- Whether an event is a metadata-attach API call. -/
def Event.isMetaCall : Event → Bool
  | Event.addProductMetadata _ _ => true
  | _ => false

/-- Whether an event is a list-products API call. -/
def Event.isListCall : Event → Bool
  | Event.listProducts => true
  | _ => false

/-! ## Concrete scenarios -/

/-- A healthy remote: the admin user resolves, no products exist yet,
creations succeed with HTTP 201 and id 1, metadata attaches succeed. -/
def client1 : Client :=
  { get_user := fun _ => Except.ok ⟨true⟩
    list_products := Except.ok ⟨true, Val.dict [("objects", Val.list [])]⟩
    create_product := fun _ _ _ => Except.ok ⟨201, Val.dict [("id", Val.int 1)]⟩
    add_product_metadata := fun _ _ => Except.ok () }

/-- The end-to-end scenario's bootstrap context:
`{steps: {create_product: {with_items: "products"}}, products: [{name: "P1"}]}`. -/
def bootstrap1 : Val :=
  Val.dict [("steps", Val.dict [("create_product", Val.dict [("with_items", Val.str "products")])]),
            ("products", Val.list [Val.dict [("name", Val.str "P1")]])]

/-- The end-to-end scenario's world: `DD_HOST=h`, `DD_USER=u` (and an admin
password) in the environment file, the bootstrap context above, a token
fetch that succeeds, and the healthy client `client1`. -/
def env1 : Env :=
  { getenv := fun k =>
      if k == "DD_HOST" then Option.some "h"
      else if k == "DD_USER" then Option.some "u"
      else if k == "DD_ADMIN_PASSWORD" then Option.some "pw"
      else Option.none
    dotenv_load := Except.ok ()
    yaml := Except.ok bootstrap1
    http_post := fun _ _ => Except.ok (Val.dict [("token", Val.str "tok123")])
    mk_client := fun _ _ _ _ => Except.ok client1 }

/-! ## Claims -/

/-- C1, the code bug evaluated at the claim's own scenario (environment
file with `DD_HOST=h` and `DD_USER=u`, healthy client, a token fetch that
would succeed, bootstrap context
`{steps: {create_product: {with_items: "products"}}, products: [{name: "P1"}]}`
with no existing remote products): because the `ContextFrom` enum body is
commented out, `run` raises `AttributeError` resolving
`ContextFrom.FROM_DOTENV` immediately after the start log — it issues no
create-product call, no metadata-attach call, and never logs
`Bootstrapping ENDED`. -/
theorem C1_run_crashes_before_bootstrap :
    run env1 = ⟨[Event.logInfo "Bootsrapping STARTS"],
                Except.error (PyErr.attributeError "FROM_DOTENV")⟩ ∧
    ((run env1).trace.filter Event.isCreateCall) = [] ∧
    ((run env1).trace.filter Event.isMetaCall) = [] ∧
    ((run env1).trace.any (fun e => match e with
      | Event.logInfo m => m == "Bootstrapping ENDED"
      | _ => false)) = false :=
  ⟨rfl, rfl, rfl, rfl⟩

/-- C2 counterexample: the claim says every value other than the eight
listed literals is returned unchanged, but Python `==` identifies the
integer `1` with `True`, so `parse_bool(1)` returns `True`, not `1` —
although `1` is none of the eight listed values. -/
theorem C2_counterexample :
    parse_bool (Val.int 1) = Val.bool true ∧
    Val.int 1 ≠ Val.bool true ∧ Val.int 1 ≠ Val.str "1" ∧
    Val.int 1 ≠ Val.str "true" ∧ Val.int 1 ≠ Val.str "True" ∧
    Val.int 1 ≠ Val.bool false ∧ Val.int 1 ≠ Val.str "0" ∧
    Val.int 1 ≠ Val.str "false" ∧ Val.int 1 ≠ Val.str "False" :=
  ⟨rfl, fun h => Val.noConfusion h, fun h => Val.noConfusion h, fun h => Val.noConfusion h,
   fun h => Val.noConfusion h, fun h => Val.noConfusion h, fun h => Val.noConfusion h,
   fun h => Val.noConfusion h, fun h => Val.noConfusion h⟩

theorem pyEq_str_iff (v : Val) (s : String) : pyEq v (Val.str s) = true ↔ v = Val.str s := by
  cases v <;> simp [pyEq]

theorem pyEq_str_false_of_ne {v : Val} {s : String} (h : v ≠ Val.str s) :
    pyEq v (Val.str s) = false := by
  cases hh : pyEq v (Val.str s) with
  | true => exact absurd ((pyEq_str_iff v s).mp hh) h
  | false => rfl

/-- C2 amended: `parse_bool` maps the four listed truthy literals — and any
other value Python-`==`-equal to `True`, such as the integer `1` — to
`True`; the four listed falsey literals — and any value `==`-equal to
`False`, such as the integer `0` — to `False`; every remaining value is
returned unchanged and no error is raised. -/
theorem C2_parse_bool_amended :
    (parse_bool (Val.bool true) = Val.bool true ∧ parse_bool (Val.str "1") = Val.bool true ∧
     parse_bool (Val.str "true") = Val.bool true ∧ parse_bool (Val.str "True") = Val.bool true ∧
     parse_bool (Val.int 1) = Val.bool true ∧
     parse_bool (Val.bool false) = Val.bool false ∧ parse_bool (Val.str "0") = Val.bool false ∧
     parse_bool (Val.str "false") = Val.bool false ∧ parse_bool (Val.str "False") = Val.bool false ∧
     parse_bool (Val.int 0) = Val.bool false) ∧
    (∀ v : Val, pyEq v (Val.bool true) = false → pyEq v (Val.bool false) = false →
      v ≠ Val.str "1" → v ≠ Val.str "True" → v ≠ Val.str "true" →
      v ≠ Val.str "0" → v ≠ Val.str "False" → v ≠ Val.str "false" →
      parse_bool v = v) := by
  constructor
  · exact ⟨rfl, rfl, rfl, rfl, rfl, rfl, rfl, rfl, rfl, rfl⟩
  · intro v h1 h2 h3 h4 h5 h6 h7 h8
    unfold parse_bool
    rw [h1, h2, pyEq_str_false_of_ne h3, pyEq_str_false_of_ne h4, pyEq_str_false_of_ne h5,
        pyEq_str_false_of_ne h6, pyEq_str_false_of_ne h7, pyEq_str_false_of_ne h8]
    simp

/-- C2 witness: the amended pass-through clause at the concrete unrecognized
string `"salmon"`. -/
theorem C2_parse_bool_amended_witness : parse_bool (Val.str "salmon") = Val.str "salmon" :=
  C2_parse_bool_amended.2 (Val.str "salmon") rfl rfl
    (by simp) (by simp) (by simp) (by simp) (by simp) (by simp)

/-- C5: for every context dict without a `products` key, `create_product`
raises `KeyError` with an empty event trace — so before any network call,
in particular before the remote product list is fetched. -/
theorem C5_missing_products_key (client : Option Client) (kvs : List (String × Val))
    (h : ((kvs.map Prod.fst).contains "products") = false) :
    create_product client (Val.dict kvs) =
      ⟨[], Except.error (PyErr.keyError
        ("Not provided proper products key in context '" ++ (Val.dict kvs).pyStr ++ "'"))⟩ := by
  unfold create_product
  rw [show Val.keys (Val.dict kvs) = Except.ok (kvs.map Prod.fst) from rfl]
  rw [Eff.liftE_ok_bind]
  simp only [h]
  rfl

/-- C5 witness: a context holding only a `steps` entry. -/
theorem C5_missing_products_key_witness :
    create_product Option.none (Val.dict [("steps", Val.none)]) =
      ⟨[], Except.error (PyErr.keyError
        ("Not provided proper products key in context '" ++
          (Val.dict [("steps", Val.none)]).pyStr ++ "'"))⟩ :=
  C5_missing_products_key Option.none [("steps", Val.none)] rfl

/-- C7, the code bug: the from-environment-file builder the claim
describes exists only as commented-out code, so the live auth-context
stage of `run` — the one invocation of that builder in the program — fails
resolving the empty enum's `FROM_DOTENV` member before any builder could
read a file or apply a name map: for every world it emits nothing and
raises `AttributeError`; no context, not even the empty one, is ever
returned. -/
theorem C7_no_live_dotenv_builder (env : Env) :
    run_auth_context env = ⟨[], Except.error (PyErr.attributeError "FROM_DOTENV")⟩ := rfl

/-- The world of the C8 failing input: `DD_ADMIN_PASSWORD` (and everything
else) unset in the process environment. -/
def env_nopw : Env :=
  { getenv := fun _ => Option.none
    dotenv_load := Except.ok ()
    yaml := Except.ok (Val.dict [])
    http_post := fun _ _ => Except.ok (Val.dict [("token", Val.str "tok")])
    mk_client := fun _ _ _ _ => Except.ok client1 }

/-- The auth context of the C8 failing input. -/
def ctx8 : Val :=
  Val.dict [("host", Val.str "h"), ("api_version", Val.str "v2"), ("user", Val.str "u")]

/-- C8, the code bug evaluated at the failing input: with
`DD_ADMIN_PASSWORD` unset, the module constant defaults to `"admin"`, yet
the login request that `get_api_key` issues carries `password: None` — the
function re-reads `os.getenv('DD_ADMIN_PASSWORD')` without the default
instead of using the constant, contradicting its own docstring. -/
theorem C8_password_default_unused :
    DD_ADMIN_PASSWORD env_nopw = "admin" ∧
    (get_api_key env_nopw ctx8).trace =
      [Event.httpPost "h/api/v2/api-token-auth/?content-type=application/json"
        (Val.dict [("username", Val.str "u"), ("password", Val.none)])] ∧
    Val.none ≠ Val.str "admin" :=
  ⟨rfl, rfl, fun h => Val.noConfusion h⟩

/-- C6: for every client, `test_client` issues a read of the well-known
administrative user (fixed id 1); when the call returns, the call's
`success` flag is returned; when the call raises any exception, the failure
is logged and escalated as a `RuntimeError`, never swallowed. -/
theorem C6_test_client (c : Client) :
    (∀ r, c.get_user DD_ADMIN_USER_ID = Except.ok r →
      test_client (Option.some c) =
        ⟨[Event.logInfo "Testing client configuration is valid", Event.getUser 1],
         Except.ok r.success⟩) ∧
    (∀ e, c.get_user DD_ADMIN_USER_ID = Except.error e →
      test_client (Option.some c) =
        ⟨[Event.logInfo "Testing client configuration is valid", Event.getUser 1,
          Event.logError "Client failed with exception, use DEBUG for details",
          Event.logDebug "traceback"],
         Except.error (PyErr.runtimeError "Client test failed, exiting")⟩) := by
  constructor
  · intro r h
    unfold test_client
    rw [show callGetUser (Option.some c) DD_ADMIN_USER_ID =
          ⟨[Event.getUser DD_ADMIN_USER_ID], c.get_user DD_ADMIN_USER_ID⟩ from rfl, h]
    rfl
  · intro e h
    unfold test_client
    rw [show callGetUser (Option.some c) DD_ADMIN_USER_ID =
          ⟨[Event.getUser DD_ADMIN_USER_ID], c.get_user DD_ADMIN_USER_ID⟩ from rfl, h]
    rfl

/-- C6 witness: the healthy client `client1`, whose admin-user read
succeeds with `success = true`. -/
theorem C6_test_client_witness :
    test_client (Option.some client1) =
      ⟨[Event.logInfo "Testing client configuration is valid", Event.getUser 1],
       Except.ok true⟩ :=
  (C6_test_client client1).1 ⟨true⟩ rfl

theorem product_loop_append (client : Option Client) (current : List Val)
    (allow_existing : Val) (pre post : List Val) (i : Val) :
    product_loop client current allow_existing (pre ++ i :: post) =
      product_loop client current allow_existing pre ++
        product_item_step client current allow_existing i ++
        product_loop client current allow_existing post := by
  simp [product_loop]

/-- C3: for every item whose name is in the fetched existing-names set,
with `allow_existing` truthy the iteration only emits the skip log (no
create call, no error); with `allow_existing` falsey the iteration's
`KeyError` is caught by the per-item handler and only the two failure logs
are emitted; and in both cases the loop still processes every other item of
the batch, the events concatenating around the affected item's. -/
theorem C3_existing_item (client : Option Client) (current : List Val)
    (allow_existing : Val) (ikvs : List (String × Val)) (pre post : List Val)
    (hmem : (current.any (fun c => pyEq c (dictGetD ikvs "name" (Val.str "ENOPRODNAME")))) = true) :
    (allow_existing.truthy = true →
      product_item_step client current allow_existing (Val.dict ikvs) =
        [Event.logInfo ("Product '" ++ (dictGetD ikvs "name" (Val.str "ENOPRODNAME")).pyStr ++
          "' alread exists, skipping")]) ∧
    (allow_existing.truthy = false →
      product_item_step client current allow_existing (Val.dict ikvs) =
        [Event.logError "Error in creating new product, set DEBUG for details",
         Event.logDebug "traceback"]) ∧
    product_loop client current allow_existing (pre ++ Val.dict ikvs :: post) =
      product_loop client current allow_existing pre ++
        product_item_step client current allow_existing (Val.dict ikvs) ++
        product_loop client current allow_existing post := by
  have hbody : product_item_body client current allow_existing (Val.dict ikvs) =
      (if allow_existing.truthy then
        Eff.emit (Event.logInfo ("Product '" ++
          (dictGetD ikvs "name" (Val.str "ENOPRODNAME")).pyStr ++ "' alread exists, skipping"))
      else
        Eff.raise (PyErr.keyError "Attempting to add existing item and 'allow_existing' set to False")) := by
    unfold product_item_body
    rw [show Val.pyGet (Val.dict ikvs) "name" (Val.str "ENOPRODNAME") =
          Except.ok (dictGetD ikvs "name" (Val.str "ENOPRODNAME")) from rfl, Eff.liftE_ok_bind]
    rw [show Val.pyGet (Val.dict ikvs) "description" (Val.str "ENOPRODDESCR") =
          Except.ok (dictGetD ikvs "description" (Val.str "ENOPRODDESCR")) from rfl, Eff.liftE_ok_bind]
    rw [show Val.pyGet (Val.dict ikvs) "prod_type" (Val.int 1) =
          Except.ok (dictGetD ikvs "prod_type" (Val.int 1)) from rfl, Eff.liftE_ok_bind]
    rw [show Val.pyGet (Val.dict ikvs) "account" (Val.str "none") =
          Except.ok (dictGetD ikvs "account" (Val.str "none")) from rfl, Eff.liftE_ok_bind]
    rw [hmem]
    simp
  refine ⟨?_, ?_, product_loop_append client current allow_existing pre post (Val.dict ikvs)⟩
  · intro htruthy
    unfold product_item_step
    rw [hbody, htruthy]
    rfl
  · intro hfalsey
    unfold product_item_step
    rw [hbody, hfalsey]
    rfl

/-- C3 witness: the existing-names set `["Alpha"]` and the item
`{name: "Alpha"}` with `allow_existing` true, placed between two empty
batch segments. -/
theorem C3_existing_item_witness :
    (Val.truthy (Val.bool true) = true →
      product_item_step Option.none [Val.str "Alpha"] (Val.bool true)
          (Val.dict [("name", Val.str "Alpha")]) =
        [Event.logInfo ("Product '" ++
          (dictGetD [("name", Val.str "Alpha")] "name" (Val.str "ENOPRODNAME")).pyStr ++
          "' alread exists, skipping")]) ∧
    (Val.truthy (Val.bool true) = false →
      product_item_step Option.none [Val.str "Alpha"] (Val.bool true)
          (Val.dict [("name", Val.str "Alpha")]) =
        [Event.logError "Error in creating new product, set DEBUG for details",
         Event.logDebug "traceback"]) ∧
    product_loop Option.none [Val.str "Alpha"] (Val.bool true)
        ([] ++ Val.dict [("name", Val.str "Alpha")] :: []) =
      product_loop Option.none [Val.str "Alpha"] (Val.bool true) [] ++
        product_item_step Option.none [Val.str "Alpha"] (Val.bool true)
          (Val.dict [("name", Val.str "Alpha")]) ++
        product_loop Option.none [Val.str "Alpha"] (Val.bool true) [] :=
  C3_existing_item Option.none [Val.str "Alpha"] (Val.bool true)
    [("name", Val.str "Alpha")] [] [] rfl

/-- C4: per-item isolation — whenever the body of one iteration raises any
exception, the surrounding per-item handler appends the two failure logs
and the iteration terminates normally, and the loop around it still runs
every earlier and later item, its events concatenating around the failed
item's. -/
theorem C4_item_isolation (client : Option Client) (current : List Val)
    (allow_existing : Val) (i : Val) (e : PyErr)
    (h : (product_item_body client current allow_existing i).result = Except.error e)
    (pre post : List Val) :
    product_item_step client current allow_existing i =
      (product_item_body client current allow_existing i).trace ++
        [Event.logError "Error in creating new product, set DEBUG for details",
         Event.logDebug "traceback"] ∧
    product_loop client current allow_existing (pre ++ i :: post) =
      product_loop client current allow_existing pre ++
        product_item_step client current allow_existing i ++
        product_loop client current allow_existing post := by
  refine ⟨?_, product_loop_append client current allow_existing pre post i⟩
  unfold product_item_step
  cases hb : product_item_body client current allow_existing i with
  | mk tr res =>
    rw [hb] at h
    simp only at h
    rw [h]

/-- A client whose create-product call raises for the name `A` and
succeeds with HTTP 201 for every other name. -/
def clientAB : Client :=
  { get_user := fun _ => Except.ok ⟨true⟩
    list_products := Except.ok ⟨true, Val.dict [("objects", Val.list [])]⟩
    create_product := fun n _ _ =>
      if pyEq n (Val.str "A") then Except.error (PyErr.connectionError "boom")
      else Except.ok ⟨201, Val.dict [("id", Val.int 2)]⟩
    add_product_metadata := fun _ _ => Except.ok () }

/-- The items of the C4 scenario. -/
def itemA : Val := Val.dict [("name", Val.str "A")]

/-- The items of the C4 scenario. -/
def itemB : Val := Val.dict [("name", Val.str "B")]

/-- C4 witness: items `[{name: A}, {name: B}]` where creating `A` raises —
the loop still appends item `B`'s events after `A`'s caught failure. -/
theorem C4_item_isolation_witness :
    product_item_step (Option.some clientAB) [] (Val.bool false) itemA =
      (product_item_body (Option.some clientAB) [] (Val.bool false) itemA).trace ++
        [Event.logError "Error in creating new product, set DEBUG for details",
         Event.logDebug "traceback"] ∧
    product_loop (Option.some clientAB) [] (Val.bool false) ([] ++ itemA :: [itemB]) =
      product_loop (Option.some clientAB) [] (Val.bool false) [] ++
        product_item_step (Option.some clientAB) [] (Val.bool false) itemA ++
        product_loop (Option.some clientAB) [] (Val.bool false) [itemB] :=
  C4_item_isolation (Option.some clientAB) [] (Val.bool false) itemA
    (PyErr.connectionError "boom") rfl [] [itemB]

/-- Checked at every position of a trace: once a create-product call has
occurred, no list-products fetch follows it. -/
def noFetchAfterCreate : List Event → Bool
  | [] => true
  | e :: r =>
      (if Event.isCreateCall e then !(r.any Event.isListCall) else true) &&
        noFetchAfterCreate r

theorem Eff.mk_ok_bind {α β : Type} (tr : List Event) (a : α) (f : α → Eff β) :
    ((⟨tr, Except.ok a⟩ : Eff α) >>= f) = ⟨tr ++ (f a).trace, (f a).result⟩ := rfl

theorem Eff.mk_error_bind {α β : Type} (tr : List Event) (e : PyErr) (f : α → Eff β) :
    ((⟨tr, Except.error e⟩ : Eff α) >>= f) = ⟨tr, Except.error e⟩ := rfl

theorem callListProducts_some (c : Client) :
    callListProducts (Option.some c) = ⟨[Event.listProducts], c.list_products⟩ := rfl

theorem callCreateProduct_some (c : Client) (n d t : Val) :
    callCreateProduct (Option.some c) n d t =
      ⟨[Event.createProduct n d t], c.create_product n d t⟩ := rfl

theorem callAddProductMetadata_some (c : Client) (pid account : Val) :
    callAddProductMetadata (Option.some c) pid account =
      ⟨[Event.addProductMetadata pid account], c.add_product_metadata pid account⟩ := rfl

theorem filter_eq_nil_of_any_false {α : Type} (p : α → Bool) (l : List α)
    (h : l.any p = false) : l.filter p = [] := by
  induction l with
  | nil => rfl
  | cons x xs ih =>
    rw [List.any_cons, Bool.or_eq_false_iff] at h
    simp [List.filter_cons, h.1, ih h.2]

theorem nfac_of_no_fetch {l : List Event} (h : l.any Event.isListCall = false) :
    noFetchAfterCreate l = true := by
  induction l with
  | nil => rfl
  | cons e r ih =>
    rw [List.any_cons, Bool.or_eq_false_iff] at h
    unfold noFetchAfterCreate
    rw [h.2, ih h.2]
    simp

theorem nfac_of_no_creates {l : List Event} (h : l.any Event.isCreateCall = false) :
    noFetchAfterCreate l = true := by
  induction l with
  | nil => rfl
  | cons e r ih =>
    rw [List.any_cons, Bool.or_eq_false_iff] at h
    unfold noFetchAfterCreate
    rw [h.1, ih h.2]
    simp

theorem nfac_append_of {a b : List Event} (ha : a.any Event.isCreateCall = false)
    (hb : b.any Event.isListCall = false) :
    noFetchAfterCreate (a ++ b) = true := by
  induction a with
  | nil => simpa using nfac_of_no_fetch hb
  | cons e r ih =>
    rw [List.any_cons, Bool.or_eq_false_iff] at ha
    rw [List.cons_append]
    unfold noFetchAfterCreate
    rw [ha.1, ih ha.2]
    simp

theorem product_item_body_no_fetch (client : Option Client) (current : List Val)
    (allow_existing : Val) (i : Val) :
    ((product_item_body client current allow_existing i).trace.any Event.isListCall) = false := by
  unfold product_item_body
  cases i with
  | none => rfl
  | bool b => rfl
  | int n => rfl
  | str s => rfl
  | list xs => rfl
  | dict ikvs =>
    rw [show Val.pyGet (Val.dict ikvs) "name" (Val.str "ENOPRODNAME") =
          Except.ok (dictGetD ikvs "name" (Val.str "ENOPRODNAME")) from rfl, Eff.liftE_ok_bind]
    rw [show Val.pyGet (Val.dict ikvs) "description" (Val.str "ENOPRODDESCR") =
          Except.ok (dictGetD ikvs "description" (Val.str "ENOPRODDESCR")) from rfl,
        Eff.liftE_ok_bind]
    rw [show Val.pyGet (Val.dict ikvs) "prod_type" (Val.int 1) =
          Except.ok (dictGetD ikvs "prod_type" (Val.int 1)) from rfl, Eff.liftE_ok_bind]
    rw [show Val.pyGet (Val.dict ikvs) "account" (Val.str "none") =
          Except.ok (dictGetD ikvs "account" (Val.str "none")) from rfl, Eff.liftE_ok_bind]
    cases hmem : current.any (fun c => pyEq c (dictGetD ikvs "name" (Val.str "ENOPRODNAME"))) with
    | true =>
      simp only [hmem, if_true]
      cases ht : allow_existing.truthy with
      | true => simp [ht, Eff.emit, Event.isListCall]
      | false => simp [ht, Eff.raise]
    | false =>
      simp only [hmem, Bool.false_eq_true, if_false]
      cases client with
      | none => rfl
      | some c =>
        rw [callCreateProduct_some]
        cases hcp : c.create_product (dictGetD ikvs "name" (Val.str "ENOPRODNAME"))
            (dictGetD ikvs "description" (Val.str "ENOPRODDESCR"))
            (dictGetD ikvs "prod_type" (Val.int 1)) with
        | error e => rfl
        | ok product =>
          rw [Eff.mk_ok_bind, List.any_append]
          cases h201 : product.response_code == 201 with
          | false =>
            simp only [h201, Bool.false_eq_true, if_false]
            rfl
          | true =>
            simp only [h201, if_true]
            cases hid : product.data.getItem "id" with
            | error e => rfl
            | ok pid =>
              rw [Eff.liftE_ok_bind, callAddProductMetadata_some]
              cases hmd : c.add_product_metadata pid (dictGetD ikvs "account" (Val.str "none")) with
              | error e => rfl
              | ok u => rfl

theorem product_item_step_no_fetch (client : Option Client) (current : List Val)
    (allow_existing : Val) (i : Val) :
    ((product_item_step client current allow_existing i).any Event.isListCall) = false := by
  have hb := product_item_body_no_fetch client current allow_existing i
  unfold product_item_step
  cases hbody : product_item_body client current allow_existing i with
  | mk tr res =>
    rw [hbody] at hb
    simp only at hb
    cases res with
    | ok a => exact hb
    | error e => simp [List.any_append, hb, Event.isListCall]

theorem product_loop_no_fetch (client : Option Client) (current : List Val)
    (allow_existing : Val) (items : List Val) :
    ((product_loop client current allow_existing items).any Event.isListCall) = false := by
  induction items with
  | nil => rfl
  | cons i rest ih =>
    show ((product_loop client current allow_existing (i :: rest)).any Event.isListCall) = false
    rw [show product_loop client current allow_existing (i :: rest) =
          product_item_step client current allow_existing i ++
            product_loop client current allow_existing rest from by simp [product_loop]]
    rw [List.any_append, product_item_step_no_fetch, ih]
    rfl

theorem get_products_trace (client : Option Client) :
    (((get_products client).trace.filter Event.isListCall).length ≤ 1) ∧
    ((get_products client).trace.any Event.isCreateCall) = false := by
  unfold get_products
  cases client with
  | none => exact ⟨of_decide_eq_true rfl, rfl⟩
  | some c =>
    rw [callListProducts_some]
    cases hlp : c.list_products with
    | error e => exact ⟨of_decide_eq_true rfl, rfl⟩
    | ok r =>
      rw [Eff.mk_ok_bind]
      cases hs : r.success with
      | false =>
        simp only [hs, Bool.false_eq_true, if_false]
        exact ⟨of_decide_eq_true rfl, rfl⟩
      | true =>
        simp only [hs, if_true]
        cases hpg : r.data.pyGet "objects" (Val.dict []) with
        | error e => exact ⟨of_decide_eq_true rfl, rfl⟩
        | ok v => exact ⟨of_decide_eq_true rfl, rfl⟩

/-- C9: in every `create_product` run, whatever the client and context, the
remote product list is fetched at most once, and never after any
create-product call has been issued — so the membership set for every item
of a batch is the one fetched before the loop, unaffected by the batch's
own creates. -/
theorem C9_single_fetch (client : Option Client) (context : Val) :
    (((create_product client context).trace.filter Event.isListCall).length ≤ 1) ∧
    noFetchAfterCreate (create_product client context).trace = true := by
  unfold create_product
  cases hk : context.keys with
  | error e => rw [Eff.liftE_error_bind]; exact ⟨of_decide_eq_true rfl, rfl⟩
  | ok ks =>
    rw [Eff.liftE_ok_bind]
    cases hc : ks.contains "products" with
    | false =>
      simp only [hc, Bool.not_false, if_true]
      exact ⟨of_decide_eq_true rfl, rfl⟩
    | true =>
      simp only [hc, Bool.not_true, Bool.false_eq_true, if_false]
      cases h1 : context.pyGet "steps" Val.none with
      | error e => rw [Eff.liftE_error_bind]; exact ⟨of_decide_eq_true rfl, rfl⟩
      | ok steps1 =>
        rw [Eff.liftE_ok_bind]
        cases h2 : steps1.pyGet "create_product" Val.none with
        | error e => rw [Eff.liftE_error_bind]; exact ⟨of_decide_eq_true rfl, rfl⟩
        | ok cp1 =>
          rw [Eff.liftE_ok_bind]
          cases h3 : cp1.pyGet "allow_existing" (Val.bool false) with
          | error e => rw [Eff.liftE_error_bind]; exact ⟨of_decide_eq_true rfl, rfl⟩
          | ok allowv =>
            rw [Eff.liftE_ok_bind]
            rw [Eff.liftE_ok_bind]
            rw [h2, Eff.liftE_ok_bind]
            cases h6 : cp1.pyGet "with_items" (Val.str "ENOITEMS") with
            | error e => rw [Eff.liftE_error_bind]; exact ⟨of_decide_eq_true rfl, rfl⟩
            | ok wi =>
              rw [Eff.liftE_ok_bind]
              cases h7 : context.pyGetV wi with
                  | error e => rw [Eff.liftE_error_bind]; exact ⟨of_decide_eq_true rfl, rfl⟩
                  | ok items =>
                    rw [Eff.liftE_ok_bind]
                    have hg := get_products_trace client
                    cases hgp : get_products client with
                    | mk gtr gres =>
                      rw [hgp] at hg
                      simp only at hg
                      cases gres with
                      | error e =>
                        rw [Eff.mk_error_bind]
                        exact ⟨hg.1, nfac_of_no_creates hg.2⟩
                      | ok prods =>
                        rw [Eff.mk_ok_bind]
                        cases h8 : prods.iter with
                        | error e =>
                          rw [Eff.liftE_error_bind]
                          simp only [List.append_nil]
                          exact ⟨hg.1, nfac_of_no_creates hg.2⟩
                        | ok plist =>
                          rw [Eff.liftE_ok_bind]
                          cases h9 : plist.mapM (fun p => p.pyGet "name" Val.none) with
                          | error e =>
                            rw [Eff.liftE_error_bind]
                            simp only [List.append_nil]
                            exact ⟨hg.1, nfac_of_no_creates hg.2⟩
                          | ok current =>
                            rw [Eff.liftE_ok_bind]
                            cases h10 : items.iter with
                            | error e =>
                              rw [Eff.liftE_error_bind]
                              simp only [List.append_nil]
                              exact ⟨hg.1, nfac_of_no_creates hg.2⟩
                            | ok itemsL =>
                              rw [Eff.liftE_ok_bind]
                              constructor
                              · rw [show (Eff.tell (product_loop client current allowv itemsL)).trace =
                                      product_loop client current allowv itemsL from rfl]
                                rw [List.filter_append,
                                    filter_eq_nil_of_any_false Event.isListCall _
                                      (product_loop_no_fetch client current allowv itemsL)]
                                simp only [List.append_nil]
                                exact hg.1
                              · exact nfac_append_of hg.2
                                  (product_loop_no_fetch client current allowv itemsL)

/-- C10, the code bug: no run reaches completion — for every world, `run`
raises `AttributeError` at the `ContextFrom.FROM_DOTENV` access right
after the start log — so the `print` of the API key at the end of `run` is
unreachable and nothing is ever written to standard output. -/
theorem C10_run_never_prints (env : Env) :
    run env = ⟨[Event.logInfo "Bootsrapping STARTS"],
               Except.error (PyErr.attributeError "FROM_DOTENV")⟩ ∧
    ((run env).trace.any (fun e => match e with
      | Event.stdout _ => true
      | _ => false)) = false :=
  ⟨rfl, rfl⟩

end DefectDojo
